import Mathlib

/-!
Verification of `cassiopeia/datastores/riotapi/match.py` (the `MatchAPI`
data source).  The Python module is shallowly embedded: dictionaries and
JSON payloads become an inductive `JValue` with association-list objects,
exceptions become `Except PErr`, the remote HTTP service becomes a
function parameter producing a `FetchOutcome`, and the lazy "get many"
generator semantics become an explicit consumption function threading a
call counter.
-/

set_option autoImplicit false

namespace RiotMatchAPI

/-- A JSON-like value: the shape of the payloads and query parameters the
Python module manipulates.  Objects keep insertion order, as Python dicts
do; keys are unique by the dict invariant. -/
inductive JValue where
  | null
  | bool (b : Bool)
  | num (n : Int)
  | str (s : String)
  | arr (elems : List JValue)
  | obj (fields : List (String × JValue))
deriving Repr

/-- Python `d[k]` / `d.get(k)` lookup on an ordered association list. -/
def objGet : List (String × JValue) → String → Option JValue
  | [], _ => none
  | (k, v) :: rest, key => if k = key then some v else objGet rest key

/-- Python `d[k] = v`: overwrite in place when the key exists, otherwise
append, preserving dict insertion order. -/
def objSet : List (String × JValue) → String → JValue → List (String × JValue)
  | [], key, val => [(key, val)]
  | (k, v) :: rest, key, val =>
      if k = key then (k, val) :: rest else (k, v) :: objSet rest key val

/-- Python `d.setdefault(k, v)`. -/
def objSetdefault (fields : List (String × JValue)) (key : String) (val : JValue) :
    List (String × JValue) :=
  match objGet fields key with
  | some _ => fields
  | none => fields ++ [(key, val)]

/-- Python `x == 0` on an optional JSON value (`None == 0` is `False`;
`False == 0` is `True`; `0` and `0.0` compare equal to `0`). -/
def pyEqZero : Option JValue → Bool
  | some (.num 0) => true
  | some (.bool false) => true
  | _ => false

/-- Modelled from the spec: the `Continent` enum of the data module
(`cassiopeia/data.py`, not under `src/`) — "RegionKey: one of a closed set
of macro-region values".  Members carry the upper-case wire value, which
the URL builders lower-case. -/
inductive Continent where
  | americas
  | asia
  | europe
deriving DecidableEq, Repr

/-- The `.value` attribute of a `Continent` member. -/
def Continent.value : Continent → String
  | .americas => "AMERICAS"
  | .asia => "ASIA"
  | .europe => "EUROPE"

/-- Modelled from the spec: the `Region` enum of the data module (not under
`src/`) — "every shard and sub-region value maps to exactly one RegionKey".
A representative closed set of sub-regions. -/
inductive Region where
  | north_america
  | korea
  | western_europe
deriving DecidableEq, Repr

/-- The `.value` attribute of a `Region` member. -/
def Region.value : Region → String
  | .north_america => "NA"
  | .korea => "KR"
  | .western_europe => "EUW"

/-- The sub-region → macro-region table (`Region.continent` property). -/
def Region.continent : Region → Continent
  | .north_america => .americas
  | .korea => .asia
  | .western_europe => .europe

/-- Modelled from the spec: the `Platform` (shard) enum of the data module
(not under `src/`); shard identifiers such as `NA1` map to exactly one
macro-region. -/
inductive Platform where
  | na1
  | kr1
  | euw1
deriving DecidableEq, Repr

/-- The `.value` attribute of a `Platform` member (the shard identifier). -/
def Platform.value : Platform → String
  | .na1 => "NA1"
  | .kr1 => "KR"
  | .euw1 => "EUW1"

/-- The shard → macro-region table (`Platform.continent` property). -/
def Platform.continent : Platform → Continent
  | .na1 => .americas
  | .kr1 => .asia
  | .euw1 => .europe

/-- The macro-region → sub-region mapping used by `get_many_match`
(`query["continent"].region.value`). -/
def Continent.region : Continent → Region
  | .americas => .north_america
  | .asia => .korea
  | .europe => .western_europe

/-- The continent-resolution block repeated at the top of every endpoint of
`MatchAPI`:

    if "region" in query:
        query["continent"] = query["region"].continent
    if "platform" in query:
        query["continent"] = query["platform"].continent

followed by reading `query["continent"]` (a `KeyError`, modelled as `none`,
when no hint at all is present). -/
def resolveContinent (c : Option Continent) (r : Option Region) (p : Option Platform) :
    Option Continent :=
  let c1 : Option Continent :=
    match r with
    | some reg => some reg.continent
    | none => c
  match p with
  | some pl => some pl.continent
  | none => c1

/-- The error taxonomy of the pipeline.  `notFound` is
`datapipelines.NotFoundError`, `notImplemented` is Python's
`NotImplementedError`, `validationError` models the query-validation
failure of the `datapipelines` collaborator (spec §7), `keyError` and
`typeError` are the Python exceptions raised by malformed payload access. -/
inductive PErr where
  | notFound (msg : String)
  | transportError (msg : String)
  | validationError (msg : String)
  | notImplemented
  | keyError (key : String)
  | typeError (what : String)
deriving DecidableEq, Repr

/-- Modelled from the spec: the outcome of one `RiotAPIService._get` call
(`common.py`, not under `src/`) — it returns the decoded JSON body, raises
`APINotFoundError` on a remote not-found status, and propagates other
transport failures. -/
inductive FetchOutcome where
  | ok (data : JValue)
  | notFound (msg : String)
  | transportError (msg : String)
deriving Repr

/-- `MatchDto(data)`: a wrapper around the normalized payload. -/
structure MatchDto where
  data : JValue
deriving Repr

/-- `TimelineDto(data)`. -/
structure TimelineDto where
  data : JValue
deriving Repr

/-- The dict handed to `MatchListDto` at the end of `get_match_list`. -/
structure MatchListDto where
  match_ids : JValue
  continent : String
  puuid : String
  type : Option JValue
  queue : Option JValue
deriving Repr

/-- Python `str.lower()` (ASCII case), written over the character list so
that it evaluates inside the kernel. -/
def pyLower (s : String) : String :=
  ⟨s.data.map Char.toLower⟩

/-- The generation-B (v5) single-match URL of `get_match` (line 34; note
the source does not lower-case the continent value here). -/
def genB_match_url (c : Continent) (id : String) : String :=
  "https://" ++ c.value ++ ".api.riotgames.com/lol/match/v5/matches/" ++ id

/-- The generation-B (v5) match-list URL of `get_match_list` (line 120). -/
def genB_match_list_url (c : Continent) (puuid : String) : String :=
  "https://" ++ pyLower c.value ++ ".api.riotgames.com/lol/match/v5/matches/by-puuid/"
    ++ puuid ++ "/ids"

/-- The generation-A (v4) per-match URL of `get_many_match` (line 67). -/
def genA_match_url (c : Continent) (id : String) : String :=
  "https://" ++ pyLower c.value ++ ".api.riotgames.com/lol/match/v4/matches/" ++ id

/-- The generation-A (v4) timeline URL of `get_match_timeline` (line 155)
and `get_many_match_timeline` (line 181). -/
def genA_timeline_url (c : Continent) (id : String) : String :=
  "https://" ++ pyLower c.value ++ ".api.riotgames.com/lol/match/v4/timelines/by-match/" ++ id

/-- The first host label of an `https://` URL: the piece between the
scheme and the first dot, computed over the character list so that it
evaluates inside the kernel. -/
def hostLabel (u : String) : String :=
  ⟨(u.data.drop 8).takeWhile (fun ch => ch ≠ '.')⟩

/-- Python `x is None` for the result of a `d.get(key, None)`: true when
the key is absent or its value is JSON null. -/
def pyIsNone : Option JValue → Bool
  | none => true
  | some .null => true
  | _ => false

/-- The per-participant bot marking of `get_match` (lines 44-49): mark
`bot = True` exactly when `p.get("puuid", None) is None`, else
`bot = False`.  Non-dict participants raise (`AttributeError`). -/
def markBotV5 (p : JValue) : Except PErr JValue :=
  match p with
  | .obj fields =>
      .ok (.obj (objSet fields "bot" (.bool (pyIsNone (objGet fields "puuid")))))
  | _ => .error (.typeError "participant")

/-- `participant.setdefault("runes", [])` of `get_many_match` (line 75). -/
def ensureRunes (p : JValue) : Except PErr JValue :=
  match p with
  | .obj fields => .ok (.obj (objSetdefault fields "runes" (.arr [])))
  | _ => .error (.typeError "participant")

/-- The per-participant-identity bot marking of `get_many_match`
(lines 76-79): `aid = p.get("player", {}).get("currentAccountId", None)`;
only when `aid == 0` is `p["player"]["bot"] = True` executed — there is no
`else` branch. -/
def markBotIdentityV4 (p : JValue) : Except PErr JValue :=
  match p with
  | .obj fields =>
      match objGet fields "player" with
      | some (.obj pl) =>
          if pyEqZero (objGet pl "currentAccountId") then
            .ok (.obj (objSet fields "player" (.obj (objSet pl "bot" (.bool true)))))
          else
            .ok (.obj fields)
      | some _ => .error (.typeError "player")
      | none => .ok (.obj fields)
  | _ => .error (.typeError "participantIdentity")

/-- The query shape shared by `_validate_get_match_query` and
`_validate_get_timeline_query`: an `id` plus one-of
continent/region/platform (all three kept, as validation leaves extra
hints in the mapping). -/
structure IdQuery where
  id : String
  continent : Option Continent
  region : Option Region
  platform : Option Platform

/-- The query shape of `_validate_get_many_match_query` and
`_validate_get_many_timeline_query`: `ids` plus location hints. -/
structure ManyIdsQuery where
  ids : List String
  continent : Option Continent
  region : Option Region
  platform : Option Platform

/-- The query shape of `_validate_get_match_list_query`.  `beginIndex` is
coerced to `int` and `maxNumberOfMatches` to `float` by the validator;
the latter is modelled as an integer (`0` is the only falsy value either
way).  `queue` and `type` stay opaque values. -/
structure MatchListQuery where
  puuid : String
  continent : Option Continent
  region : Option Region
  platform : Option Platform
  beginIndex : Option Int
  maxNumberOfMatches : Option Int
  queue : Option JValue
  type : Option JValue

/-- The query shape of `_validate_get_many_match_list_query`. -/
structure ManyMatchListQuery where
  puuid : List String
  continent : Option Continent
  region : Option Region
  platform : Option Platform
  beginIndex : Option Int
  maxNumberOfMatches : Option Int
  queues : Option JValue
  type : Option JValue

/-- `get_match` (lines 25-50): resolve the continent, build the v5 URL,
fetch (one remote call through the rate-limiter pair), map
`APINotFoundError` to `NotFoundError`, drop the `metadata` envelope by
keeping `data["info"]`, attach the continent, and mark every participant's
`bot` flag from the presence of `puuid`. -/
def get_match (q : IdQuery)
    (fetch : String → List (String × JValue) → FetchOutcome) : Except PErr MatchDto :=
  match resolveContinent q.continent q.region q.platform with
  | none => .error (.keyError "continent")
  | some continent =>
    match fetch (genB_match_url continent q.id) [] with
    | .notFound msg => .error (.notFound msg)
    | .transportError msg => .error (.transportError msg)
    | .ok payload =>
      match payload with
      | .obj outer =>
        match objGet outer "info" with
        | none => .error (.keyError "info")
        | some info =>
          match info with
          | .obj fields =>
            let fields := objSet fields "continent" (.str continent.value)
            match objGet fields "participants" with
            | some (.arr ps) =>
                match ps.mapM markBotV5 with
                | .error e => .error e
                | .ok ps => .ok ⟨.obj (objSet fields "participants" (.arr ps))⟩
            | some _ => .error (.typeError "participants")
            | none => .error (.keyError "participants")
          | _ => .error (.typeError "info")
      | _ => .error (.typeError "payload")

/-- The `count` request parameter of `get_match_list` (line 106):
`query.get("maxNumberOfMatches", None) or 100`. -/
def matchListCount (m : Option Int) : JValue :=
  match m with
  | some v => if v = 0 then .num 100 else .num v
  | none => .num 100

/-- The request-parameter block of `get_match_list` (lines 103-115):
`start` from `beginIndex` (default `0`), `count` from
`maxNumberOfMatches or 100`, then the double `QUEUE_IDS` application for
`queue`, then `type`.  Returns the params dict, the once-mapped queue
value stored in the local `queue` variable, and the `type_` value.  A
missed `QUEUE_IDS` lookup is a `KeyError`.  `queueIds` is the imported
`QUEUE_IDS` table (data module, not under `src/`), kept abstract. -/
def buildMatchListParams (queueIds : JValue → Option JValue) (q : MatchListQuery) :
    Except PErr (List (String × JValue) × Option JValue × Option JValue) :=
  let base : List (String × JValue) :=
    [("start", .num (q.beginIndex.getD 0)), ("count", matchListCount q.maxNumberOfMatches)]
  let typeParams : List (String × JValue) :=
    match q.type with
    | some t => [("type", t)]
    | none => []
  match q.queue with
  | none => .ok (base ++ typeParams, none, q.type)
  | some qv =>
    match queueIds qv with
    | none => .error (.keyError "QUEUE_IDS")
    | some q1 =>
      match queueIds q1 with
      | none => .error (.keyError "QUEUE_IDS")
      | some q2 => .ok (base ++ [("queue", q2)] ++ typeParams, some q1, q.type)

/-- `get_match_list` (lines 95-127): resolve the continent, build the
params, fetch the v5 by-puuid id list; `APINotFoundError` is caught and
replaced by the empty list `[]`; the returned record carries the raw id
list, the continent value, the puuid, `type_` and the once-mapped
`queue`. -/
def get_match_list (queueIds : JValue → Option JValue) (q : MatchListQuery)
    (fetch : String → List (String × JValue) → FetchOutcome) : Except PErr MatchListDto :=
  match resolveContinent q.continent q.region q.platform with
  | none => .error (.keyError "continent")
  | some continent =>
    match buildMatchListParams queueIds q with
    | .error e => .error e
    | .ok (params, queue1, type1) =>
      match fetch (genB_match_list_url continent q.puuid) params with
      | .transportError msg => .error (.transportError msg)
      | .notFound _ => .ok ⟨.arr [], continent.value, q.puuid, type1, queue1⟩
      | .ok d => .ok ⟨d, continent.value, q.puuid, type1, queue1⟩

/-- `get_many_match_list` (lines 137-140): `raise NotImplementedError()`
before any other work. -/
def get_many_match_list (_q : ManyMatchListQuery) : Except PErr (List MatchListDto) :=
  .error .notImplemented

/-- `get_match_timeline` (lines 146-164): resolve the continent, fetch the
v4 timeline URL, propagate `NotFoundError`, then attach `matchId` and
`continent` to the payload. -/
def get_match_timeline (q : IdQuery)
    (fetch : String → List (String × JValue) → FetchOutcome) : Except PErr TimelineDto :=
  match resolveContinent q.continent q.region q.platform with
  | none => .error (.keyError "continent")
  | some continent =>
    match fetch (genA_timeline_url continent q.id) [] with
    | .notFound msg => .error (.notFound msg)
    | .transportError msg => .error (.transportError msg)
    | .ok payload =>
      match payload with
      | .obj fields =>
          .ok ⟨.obj (objSet (objSet fields "matchId" (.str q.id)) "continent"
                (.str continent.value))⟩
      | _ => .error (.typeError "payload")

/-- The per-match normalization body of `get_many_match` (lines 74-83):
ensure every participant has a `runes` field, apply the v4 bot marking to
every participant identity, then set `gameId` and `region` (the latter via
`continent.region.value`). -/
def normalizeV4Match (continent : Continent) (id : String) (payload : JValue) :
    Except PErr MatchDto :=
  match payload with
  | .obj fields =>
    match objGet fields "participants" with
    | some (.arr ps) =>
      match ps.mapM ensureRunes with
      | .error e => .error e
      | .ok ps =>
        let fields := objSet fields "participants" (.arr ps)
        match objGet fields "participantIdentities" with
        | some (.arr pis) =>
          match pis.mapM markBotIdentityV4 with
          | .error e => .error e
          | .ok pis =>
            let fields := objSet fields "participantIdentities" (.arr pis)
            let fields := objSet fields "gameId" (.str id)
            let fields := objSet fields "region" (.str continent.region.value)
            .ok ⟨.obj fields⟩
        | some _ => .error (.typeError "participantIdentities")
        | none => .error (.keyError "participantIdentities")
    | some _ => .error (.typeError "participants")
    | none => .error (.keyError "participants")
  | _ => .error (.typeError "payload")

/-- One loop iteration of the `get_many_match` generator body (lines
66-83), after the fetch outcome is known: `APINotFoundError` becomes
`NotFoundError`, a good payload is normalized. -/
def genAMatchStep (continent : Continent)
    (fetch : String → List (String × JValue) → FetchOutcome) (id : String) :
    Except PErr MatchDto :=
  match fetch (genA_match_url continent id) [] with
  | .notFound msg => .error (.notFound msg)
  | .transportError msg => .error (.transportError msg)
  | .ok payload => normalizeV4Match continent id payload

/-- One loop iteration of the `get_many_match_timeline` generator body
(lines 180-190). -/
def genATimelineStep (continent : Continent)
    (fetch : String → List (String × JValue) → FetchOutcome) (id : String) :
    Except PErr TimelineDto :=
  match fetch (genA_timeline_url continent id) [] with
  | .notFound msg => .error (.notFound msg)
  | .transportError msg => .error (.transportError msg)
  | .ok payload =>
    match payload with
    | .obj fields =>
        .ok ⟨.obj (objSet (objSet fields "matchId" (.str id)) "continent"
              (.str continent.value))⟩
    | _ => .error (.typeError "payload")

/-- Modelled from the spec: the observable cost of the limiter gateway and
transport (`RiotAPIService._get_rate_limiter` / `_get` in `common.py`, not
under `src/`) — every outbound call acquires the app limiter and the
method limiter once and issues one network call. -/
@[ext]
structure CallCounts where
  fetches : Nat
  appAcquires : Nat
  methodAcquires : Nat
deriving DecidableEq, Repr

/-- Whether an `Except` result is a success. -/
def exceptOk {α : Type} : Except PErr α → Bool
  | .ok _ => true
  | .error _ => false

/-- Python-generator consumption semantics: consuming `k` elements of the
generator over `ids` runs the loop body `min k ids.length` times; each
body execution first acquires both limiters and issues one fetch (counted
in `cnt`), then runs `step`; a raised exception ends the iteration.
Nothing runs before the consumer advances (`k = 0` does no work). -/
def consumeGenerator {α : Type} (step : String → Except PErr α) :
    List String → Nat → CallCounts → Except PErr (List α) × CallCounts
  | [], _, cnt => (.ok [], cnt)
  | _ :: _, 0, cnt => (.ok [], cnt)
  | id :: rest, k + 1, cnt =>
    let cnt1 : CallCounts :=
      ⟨cnt.fetches + 1, cnt.appAcquires + 1, cnt.methodAcquires + 1⟩
    match step id with
    | .error e => (.error e, cnt1)
    | .ok a =>
      let res := consumeGenerator step rest k cnt1
      (res.1.map (a :: ·), res.2)

/-- `get_many_match` (lines 56-85): resolve the continent once, return the
lazy generator over `query["ids"]`; `k` is the number of elements the
consumer requests. -/
def get_many_match (q : ManyIdsQuery)
    (fetch : String → List (String × JValue) → FetchOutcome) (k : Nat) :
    Except PErr (List MatchDto) × CallCounts :=
  match resolveContinent q.continent q.region q.platform with
  | none => (.error (.keyError "continent"), ⟨0, 0, 0⟩)
  | some continent =>
      consumeGenerator (genAMatchStep continent fetch) q.ids k ⟨0, 0, 0⟩

/-- `get_many_match_timeline` (lines 170-192), same generator shape. -/
def get_many_match_timeline (q : ManyIdsQuery)
    (fetch : String → List (String × JValue) → FetchOutcome) (k : Nat) :
    Except PErr (List TimelineDto) × CallCounts :=
  match resolveContinent q.continent q.region q.platform with
  | none => (.error (.keyError "continent"), ⟨0, 0, 0⟩)
  | some continent =>
      consumeGenerator (genATimelineStep continent fetch) q.ids k ⟨0, 0, 0⟩

/-! ## Helper lemmas -/

/-- Writing a key into a dict makes it readable back. -/
theorem objGet_objSet_self (fields : List (String × JValue)) (k : String) (v : JValue) :
    objGet (objSet fields k v) k = some v := by
  induction fields with
  | nil => simp [objSet, objGet]
  | cons hd tl ih =>
    obtain ⟨k0, v0⟩ := hd
    by_cases h : k0 = k
    · simp [objSet, objGet, h]
    · simp [objSet, objGet, h, ih]

/-- Any successfully built match-list request carries `count` and `start`
parameters computed from `maxNumberOfMatches` and `beginIndex`. -/
theorem build_params_count (queueIds : JValue → Option JValue) (q : MatchListQuery)
    (ps : List (String × JValue)) (qu ty : Option JValue)
    (h : buildMatchListParams queueIds q = .ok (ps, qu, ty)) :
    objGet ps "count" = some (matchListCount q.maxNumberOfMatches) ∧
    objGet ps "start" = some (.num (q.beginIndex.getD 0)) := by
  cases hq : q.queue with
  | none =>
    simp only [buildMatchListParams, hq, Except.ok.injEq, Prod.mk.injEq] at h
    obtain ⟨hps, -, -⟩ := h
    subst hps
    exact ⟨rfl, rfl⟩
  | some qv =>
    cases h1 : queueIds qv with
    | none => simp [buildMatchListParams, hq, h1] at h
    | some q1 =>
      cases h2 : queueIds q1 with
      | none => simp [buildMatchListParams, hq, h1, h2] at h
      | some q2 =>
        simp only [buildMatchListParams, hq, h1, h2, Except.ok.injEq, Prod.mk.injEq] at h
        obtain ⟨hps, -, -⟩ := h
        subst hps
        exact ⟨rfl, rfl⟩

/-- Counting lemma for generator consumption: a successful consumption of
`k` elements over `ids` issues exactly `min k ids.length` fetches, app
limiter acquisitions and method limiter acquisitions, and yields exactly
`min k ids.length` records. -/
theorem consumeGenerator_counts {α : Type} (step : String → Except PErr α)
    (ids : List String) (k : Nat) (cnt : CallCounts)
    (h : exceptOk (consumeGenerator step ids k cnt).1 = true) :
    (consumeGenerator step ids k cnt).2.fetches = cnt.fetches + min k ids.length ∧
    (consumeGenerator step ids k cnt).2.appAcquires = cnt.appAcquires + min k ids.length ∧
    (consumeGenerator step ids k cnt).2.methodAcquires = cnt.methodAcquires + min k ids.length ∧
    ∃ out, (consumeGenerator step ids k cnt).1 = .ok out ∧ out.length = min k ids.length := by
  induction ids generalizing k cnt with
  | nil => simp [consumeGenerator]
  | cons id rest ih =>
    cases k with
    | zero => simp [consumeGenerator]
    | succ k =>
      cases hstep : step id with
      | error e =>
        exfalso
        simp [consumeGenerator, hstep, exceptOk] at h
      | ok a =>
        simp only [consumeGenerator, hstep, List.length_cons] at h ⊢
        have hrec : exceptOk (consumeGenerator step rest k
            ⟨cnt.fetches + 1, cnt.appAcquires + 1, cnt.methodAcquires + 1⟩).1 = true := by
          cases hr : (consumeGenerator step rest k
              ⟨cnt.fetches + 1, cnt.appAcquires + 1, cnt.methodAcquires + 1⟩).1 with
          | ok out => simp [exceptOk]
          | error e => rw [hr] at h; simp [Except.map, exceptOk] at h
        obtain ⟨hf, ha, hm, out, hout, hlen⟩ :=
          ih k ⟨cnt.fetches + 1, cnt.appAcquires + 1, cnt.methodAcquires + 1⟩ hrec
        have hf2 : (consumeGenerator step rest k
            ⟨cnt.fetches + 1, cnt.appAcquires + 1, cnt.methodAcquires + 1⟩).2.fetches =
            cnt.fetches + 1 + min k rest.length := hf
        have ha2 : (consumeGenerator step rest k
            ⟨cnt.fetches + 1, cnt.appAcquires + 1, cnt.methodAcquires + 1⟩).2.appAcquires =
            cnt.appAcquires + 1 + min k rest.length := ha
        have hm2 : (consumeGenerator step rest k
            ⟨cnt.fetches + 1, cnt.appAcquires + 1, cnt.methodAcquires + 1⟩).2.methodAcquires =
            cnt.methodAcquires + 1 + min k rest.length := hm
        refine ⟨by rw [hf2]; omega, by rw [ha2]; omega, by rw [hm2]; omega, ?_⟩
        refine ⟨a :: out, by rw [hout]; rfl, ?_⟩
        simp only [List.length_cons, hlen]
        omega

/-! ## Concrete sample inputs used by witnesses and counterexamples -/

/-- A remote service whose every response is not-found. -/
def nfFetch : String → List (String × JValue) → FetchOutcome :=
  fun _ _ => .notFound "404"

/-- An empty `QUEUE_IDS` table. -/
def emptyQueueIds : JValue → Option JValue := fun _ => none

/-- A tiny `QUEUE_IDS` table in which the double application of the C9
shape is defined: queue name ↦ 420 ↦ 440. -/
def sampleQueueIds : JValue → Option JValue
  | .str "RANKED_SOLO" => some (.num 420)
  | .num 420 => some (.num 440)
  | _ => none

/-- A single-match query giving only the continent hint. -/
def qIdAmericas : IdQuery := ⟨"M1", some .americas, none, none⟩

/-- A match-list query with every optional field unset. -/
def qlPlain : MatchListQuery :=
  ⟨"p1", some .americas, none, none, none, none, none, none⟩

/-- A match-list query with `beginIndex` unset but a nonzero
`maxNumberOfMatches` of 50. -/
def qlMax50 : MatchListQuery :=
  ⟨"p1", some .americas, none, none, none, some 50, none, none⟩

/-- A match-list query with `maxNumberOfMatches = 7`. -/
def qlMax7 : MatchListQuery :=
  ⟨"p1", some .americas, none, none, none, some 7, none, none⟩

/-- A match-list query carrying a queue value. -/
def qlQueue : MatchListQuery :=
  ⟨"p1", some .americas, none, none, none, none, some (.str "RANKED_SOLO"), none⟩

/-- A remote service always answering with a one-element match-id list. -/
def idListFetch : String → List (String × JValue) → FetchOutcome :=
  fun _ _ => .ok (.arr [.str "M1"])

/-- A "get many" query over three ids. -/
def qManyAmericas : ManyIdsQuery := ⟨["a", "b", "c"], some .americas, none, none⟩

/-- A remote service always returning a minimal well-formed v4 match
payload (empty participant lists), which also serves as a timeline
payload. -/
def v4okFetch : String → List (String × JValue) → FetchOutcome :=
  fun _ _ => .ok (.obj [("participants", .arr []), ("participantIdentities", .arr [])])

/-! ## Claims -/

/-- C3 counterexample: a query carrying both an explicit continent (ASIA)
and a region (NA, whose continent is AMERICAS) resolves to AMERICAS — the
explicit macro-region value does not win, refuting the claimed
precedence. -/
theorem c3_counterexample :
    resolveContinent (some .asia) (some .north_america) none = some .americas ∧
    Continent.americas ≠ Continent.asia :=
  ⟨rfl, by decide⟩

/-- C3 (amended): the precedence implemented by the continent-resolution
block is the reverse of the claimed one — the shard (platform) hint wins,
otherwise the sub-region (region) hint, and the explicit macro-region
(continent) value is used only when neither is present. -/
theorem c3_resolution_precedence :
    (∀ (c : Option Continent) (r : Option Region) (p : Platform),
        resolveContinent c r (some p) = some p.continent) ∧
    (∀ (c : Option Continent) (r : Region),
        resolveContinent c (some r) none = some r.continent) ∧
    (∀ c : Continent, resolveContinent (some c) none none = some c) :=
  ⟨fun _ _ _ => rfl, fun _ _ => rfl, fun _ => rfl⟩

/-- C6: evaluating the generation-A URL builders of `get_many_match` and
`get_match_timeline` at the failing input (continent AMERICAS, the
macro-region of shard NA1, id 123) shows the host label is the lowercased
macro-region value "americas", not the shard identifier "na1" the spec
requires for v4 endpoints. -/
theorem c6_genA_host_is_macro_region :
    hostLabel (genA_match_url .americas "123") = "americas" ∧
    hostLabel (genA_timeline_url .americas "123") = "americas" ∧
    pyLower (Platform.value .na1) = "na1" ∧
    ("americas" : String) ≠ "na1" := by
  refine ⟨by decide, by decide, by decide, by decide⟩

/-- C7: `get_many_match_list` always fails with the `NotImplemented`
signal, which is a distinct error from `NotFound`, validation errors and
transport errors, and it never returns a (possibly empty) result. -/
theorem c7_many_match_list_not_implemented :
    (∀ q : ManyMatchListQuery, get_many_match_list q = .error .notImplemented) ∧
    (∀ msg : String,
        PErr.notImplemented ≠ PErr.notFound msg ∧
        PErr.notImplemented ≠ PErr.validationError msg ∧
        PErr.notImplemented ≠ PErr.transportError msg) ∧
    (∀ (q : ManyMatchListQuery) (rs : List MatchListDto), get_many_match_list q ≠ .ok rs) := by
  refine ⟨fun _ => rfl, fun msg => ⟨?_, ?_, ?_⟩, fun q rs => ?_⟩ <;> intro h <;> exact nomatch h

/-- C2: the bot-marking signals.  Generation B (`get_match`): a
participant whose `puuid` is absent (or None) gets `bot = True`.
Generation A (`get_many_match`): a participant identity whose linked
`currentAccountId` equals the sentinel 0 gets `bot = True` written into
its `player` dict. -/
theorem c2_bot_signals :
    (∀ fields : List (String × JValue),
        objGet fields "puuid" = none ∨ objGet fields "puuid" = some .null →
        ∃ out, markBotV5 (.obj fields) = .ok (.obj out) ∧
          objGet out "bot" = some (.bool true)) ∧
    (∀ fields pl : List (String × JValue),
        objGet fields "player" = some (.obj pl) →
        objGet pl "currentAccountId" = some (.num 0) →
        ∃ out pl2, markBotIdentityV4 (.obj fields) = .ok (.obj out) ∧
          objGet out "player" = some (.obj pl2) ∧
          objGet pl2 "bot" = some (.bool true)) := by
  constructor
  · intro fields h
    refine ⟨objSet fields "bot" (.bool true), ?_, objGet_objSet_self ..⟩
    rcases h with h | h <;> simp [markBotV5, h, pyIsNone]
  · intro fields pl hp ha
    refine ⟨objSet fields "player" (.obj (objSet pl "bot" (.bool true))),
      objSet pl "bot" (.bool true), ?_, objGet_objSet_self .., objGet_objSet_self ..⟩
    simp [markBotIdentityV4, hp, ha, pyEqZero]

/-- C2 witness: the generation-B marking at a participant with no `puuid`
key, and the generation-A marking at an identity with
`currentAccountId = 0`. -/
theorem c2_bot_signals_witness :
    (∃ out, markBotV5 (.obj []) = .ok (.obj out) ∧
      objGet out "bot" = some (.bool true)) ∧
    (∃ out pl2,
      markBotIdentityV4 (.obj [("player", .obj [("currentAccountId", .num 0)])]) =
        .ok (.obj out) ∧
      objGet out "player" = some (.obj pl2) ∧
      objGet pl2 "bot" = some (.bool true)) :=
  ⟨c2_bot_signals.1 [] (Or.inl rfl),
   c2_bot_signals.2 [("player", .obj [("currentAccountId", .num 0)])]
     [("currentAccountId", .num 0)] rfl rfl⟩

/-- C10: the bot flag is total in generation B but partial in generation
A.  `get_match` writes an explicit boolean `bot` key on every (dict)
participant; `get_many_match` leaves a participant identity completely
unchanged when the linked account id is not the 0 sentinel (including when
the `player` key is absent) — a `bot` key is never set to `False`. -/
theorem c10_bot_key_totality :
    (∀ fields : List (String × JValue),
        ∃ out b, markBotV5 (.obj fields) = .ok (.obj out) ∧
          objGet out "bot" = some (.bool b)) ∧
    (∀ fields pl : List (String × JValue),
        objGet fields "player" = some (.obj pl) →
        pyEqZero (objGet pl "currentAccountId") = false →
        markBotIdentityV4 (.obj fields) = .ok (.obj fields)) ∧
    (∀ fields : List (String × JValue),
        objGet fields "player" = none →
        markBotIdentityV4 (.obj fields) = .ok (.obj fields)) := by
  refine ⟨fun fields => ?_, fun fields pl hp hz => ?_, fun fields hp => ?_⟩
  · exact ⟨objSet fields "bot" (.bool (pyIsNone (objGet fields "puuid"))),
      pyIsNone (objGet fields "puuid"), rfl, objGet_objSet_self ..⟩
  · simp [markBotIdentityV4, hp, hz]
  · simp [markBotIdentityV4, hp]

/-- C10 witness: a generation-B participant with a real puuid still gets
an explicit `bot` key; a generation-A identity with a nonzero account id,
and one with no `player` dict at all, are returned unchanged (no `bot`
key added). -/
theorem c10_bot_key_totality_witness :
    (∃ out b, markBotV5 (.obj [("puuid", .str "x")]) = .ok (.obj out) ∧
      objGet out "bot" = some (.bool b)) ∧
    markBotIdentityV4 (.obj [("player", .obj [("currentAccountId", .num 7)])]) =
      .ok (.obj [("player", .obj [("currentAccountId", .num 7)])]) ∧
    markBotIdentityV4 (.obj [("participantId", .num 3)]) =
      .ok (.obj [("participantId", .num 3)]) :=
  ⟨c10_bot_key_totality.1 [("puuid", .str "x")],
   c10_bot_key_totality.2.1 [("player", .obj [("currentAccountId", .num 7)])]
     [("currentAccountId", .num 7)] rfl rfl,
   c10_bot_key_totality.2.2 [("participantId", .num 3)] rfl⟩

/-- C1: when the remote service signals not-found, the single-match
pipeline `get_match` raises `NotFound` to the caller, while the match-list
pipeline `get_match_list` does not raise and returns a record whose
`match_ids` collection is the empty list. -/
theorem c1_notfound_single_vs_list
    (q : IdQuery) (c cL : Continent) (msg : String)
    (fetch : String → List (String × JValue) → FetchOutcome)
    (queueIds : JValue → Option JValue) (qL : MatchListQuery)
    (ps : List (String × JValue)) (qu ty : Option JValue)
    (hres : resolveContinent q.continent q.region q.platform = some c)
    (hfetch : ∀ url params, fetch url params = .notFound msg)
    (hresL : resolveContinent qL.continent qL.region qL.platform = some cL)
    (hbuild : buildMatchListParams queueIds qL = .ok (ps, qu, ty)) :
    get_match q fetch = .error (.notFound msg) ∧
    get_match_list queueIds qL fetch = .ok ⟨.arr [], cL.value, qL.puuid, ty, qu⟩ := by
  constructor
  · simp [get_match, hres, hfetch]
  · simp [get_match_list, hresL, hbuild, hfetch]

/-- C1 witness: a concrete not-found service makes `get_match` fail with
`NotFound` and `get_match_list` return an empty-id-list record. -/
theorem c1_witness :
    get_match qIdAmericas nfFetch = .error (.notFound "404") ∧
    get_match_list emptyQueueIds qlPlain nfFetch =
      .ok ⟨.arr [], "AMERICAS", "p1", none, none⟩ :=
  c1_notfound_single_vs_list qIdAmericas .americas .americas "404" nfFetch emptyQueueIds
    qlPlain [("start", .num 0), ("count", .num 100)] none none rfl (fun _ _ => rfl) rfl rfl

/-- C4 counterexample: a match-list query with `beginIndex` unset but
`maxNumberOfMatches = 50` builds a request whose `count` parameter is 50,
not 100 — `count` does not depend on `beginIndex`. -/
theorem c4_counterexample :
    qlMax50.beginIndex = none ∧
    buildMatchListParams emptyQueueIds qlMax50 =
      .ok ([("start", .num 0), ("count", .num 50)], none, none) ∧
    objGet [("start", .num 0), ("count", .num 50)] "count" = some (.num 50) ∧
    JValue.num 50 ≠ JValue.num 100 := by
  refine ⟨rfl, rfl, rfl, fun h => ?_⟩
  exact absurd (JValue.num.inj h) (by decide)

/-- C4 (amended): for every match-list query in which both `beginIndex`
and `maxNumberOfMatches` are unset, the built request's `count` parameter
equals 100. -/
theorem c4_default_count (queueIds : JValue → Option JValue) (q : MatchListQuery)
    (ps : List (String × JValue)) (qu ty : Option JValue)
    (_hb : q.beginIndex = none) (hm : q.maxNumberOfMatches = none)
    (hok : buildMatchListParams queueIds q = .ok (ps, qu, ty)) :
    objGet ps "count" = some (.num 100) := by
  have h := (build_params_count queueIds q ps qu ty hok).1
  rw [hm] at h
  exact h

/-- C4 witness: the all-defaults query builds `count = 100`. -/
theorem c4_default_count_witness :
    objGet [("start", JValue.num 0), ("count", JValue.num 100)] "count" =
      some (JValue.num 100) :=
  c4_default_count emptyQueueIds qlPlain
    [("start", .num 0), ("count", .num 100)] none none rfl rfl rfl

/-- C5: the built request's `count` parameter is the default page size 100
when the caller's `maxNumberOfMatches` is unset or zero, and is the
caller's value when it is nonzero. -/
theorem c5_count_default_or_passthrough (queueIds : JValue → Option JValue)
    (q : MatchListQuery) (ps : List (String × JValue)) (qu ty : Option JValue)
    (hok : buildMatchListParams queueIds q = .ok (ps, qu, ty)) :
    ((q.maxNumberOfMatches = none ∨ q.maxNumberOfMatches = some 0) →
      objGet ps "count" = some (.num 100)) ∧
    (∀ v : Int, q.maxNumberOfMatches = some v → v ≠ 0 →
      objGet ps "count" = some (.num v)) := by
  have h := (build_params_count queueIds q ps qu ty hok).1
  constructor
  · rintro (hm | hm) <;> rw [hm] at h <;> simpa [matchListCount] using h
  · intro v hm hv
    rw [hm] at h
    simpa [matchListCount, hv] using h

/-- C5 witness: `count = 100` for the all-defaults query and `count = 7`
when `maxNumberOfMatches = 7`. -/
theorem c5_count_witness :
    objGet [("start", JValue.num 0), ("count", JValue.num 100)] "count" =
      some (JValue.num 100) ∧
    objGet [("start", JValue.num 0), ("count", JValue.num 7)] "count" =
      some (JValue.num 7) :=
  ⟨(c5_count_default_or_passthrough emptyQueueIds qlPlain
      [("start", .num 0), ("count", .num 100)] none none rfl).1 (Or.inl rfl),
   (c5_count_default_or_passthrough emptyQueueIds qlMax7
      [("start", .num 0), ("count", .num 7)] none none rfl).2 7 rfl (by decide)⟩

/-- C9: with a queue key present, the `QUEUE_IDS` table is applied twice
for the outgoing request parameter (`params["queue"] = QUEUE_IDS[QUEUE_IDS[...]]`)
while the returned record's queue field holds the once-mapped value. -/
theorem c9_queue_double_mapping (queueIds : JValue → Option JValue) (q : MatchListQuery)
    (c : Continent) (qv q1 q2 d : JValue)
    (fetch : String → List (String × JValue) → FetchOutcome)
    (hres : resolveContinent q.continent q.region q.platform = some c)
    (hq : q.queue = some qv) (h1 : queueIds qv = some q1) (h2 : queueIds q1 = some q2)
    (hfetch : ∀ url params, fetch url params = .ok d) :
    (∃ ps ty, buildMatchListParams queueIds q = .ok (ps, some q1, ty) ∧
      objGet ps "queue" = some q2) ∧
    (∃ r, get_match_list queueIds q fetch = .ok r ∧ r.queue = some q1) := by
  have hbuild : buildMatchListParams queueIds q =
      .ok ([("start", .num (q.beginIndex.getD 0)),
            ("count", matchListCount q.maxNumberOfMatches)] ++ [("queue", q2)] ++
              (match q.type with | some t => [("type", t)] | none => []),
            some q1, q.type) := by
    simp [buildMatchListParams, hq, h1, h2]
  constructor
  · exact ⟨_, q.type, hbuild, rfl⟩
  · refine ⟨⟨d, c.value, q.puuid, q.type, some q1⟩, ?_, rfl⟩
    simp [get_match_list, hres, hbuild, hfetch]

/-- C9 witness: with the sample table mapping queue name ↦ 420 ↦ 440, the
request parameter is 440 (double application) and the record's queue
field is 420 (single application). -/
theorem c9_queue_double_mapping_witness :
    (∃ ps ty, buildMatchListParams sampleQueueIds qlQueue =
        .ok (ps, some (.num 420), ty) ∧ objGet ps "queue" = some (.num 440)) ∧
    (∃ r, get_match_list sampleQueueIds qlQueue idListFetch = .ok r ∧
      r.queue = some (.num 420)) :=
  c9_queue_double_mapping sampleQueueIds qlQueue .americas (.str "RANKED_SOLO")
    (.num 420) (.num 440) (.arr [.str "M1"]) idListFetch rfl rfl rfl rfl (fun _ _ => rfl)

/-- C8: a lazy "get many" sequence issues exactly one network call, one
app-limiter acquisition and one method-limiter acquisition per element
consumed: consuming `k` of `N` ids issues exactly `min k N` of each (so
`N` when fully consumed, `k` when stopping early), yields that many
records, and consuming nothing issues nothing — for both `get_many_match`
and `get_many_match_timeline`. -/
theorem c8_lazy_get_many (qM qT : ManyIdsQuery)
    (fetchM fetchT : String → List (String × JValue) → FetchOutcome)
    (kM kT : Nat) (cM cT : Continent)
    (hM : resolveContinent qM.continent qM.region qM.platform = some cM)
    (hT : resolveContinent qT.continent qT.region qT.platform = some cT)
    (hMok : exceptOk (get_many_match qM fetchM kM).1 = true)
    (hTok : exceptOk (get_many_match_timeline qT fetchT kT).1 = true) :
    ((get_many_match qM fetchM kM).2 =
        ⟨min kM qM.ids.length, min kM qM.ids.length, min kM qM.ids.length⟩ ∧
      (∃ out, (get_many_match qM fetchM kM).1 = .ok out ∧
        out.length = min kM qM.ids.length) ∧
      (get_many_match qM fetchM 0).2 = ⟨0, 0, 0⟩) ∧
    ((get_many_match_timeline qT fetchT kT).2 =
        ⟨min kT qT.ids.length, min kT qT.ids.length, min kT qT.ids.length⟩ ∧
      (∃ out, (get_many_match_timeline qT fetchT kT).1 = .ok out ∧
        out.length = min kT qT.ids.length) ∧
      (get_many_match_timeline qT fetchT 0).2 = ⟨0, 0, 0⟩) := by
  have hMdef : ∀ k, get_many_match qM fetchM k =
      consumeGenerator (genAMatchStep cM fetchM) qM.ids k ⟨0, 0, 0⟩ := by
    intro k
    simp [get_many_match, hM]
  have hTdef : ∀ k, get_many_match_timeline qT fetchT k =
      consumeGenerator (genATimelineStep cT fetchT) qT.ids k ⟨0, 0, 0⟩ := by
    intro k
    simp [get_many_match_timeline, hT]
  rw [hMdef kM] at hMok
  rw [hTdef kT] at hTok
  obtain ⟨hf, ha, hm, out, hout, hlen⟩ :=
    consumeGenerator_counts (genAMatchStep cM fetchM) qM.ids kM ⟨0, 0, 0⟩ hMok
  obtain ⟨hf2, ha2, hm2, out2, hout2, hlen2⟩ :=
    consumeGenerator_counts (genATimelineStep cT fetchT) qT.ids kT ⟨0, 0, 0⟩ hTok
  refine ⟨⟨?_, ⟨out, by rw [hMdef kM, hout], hlen⟩, ?_⟩,
          ⟨?_, ⟨out2, by rw [hTdef kT, hout2], hlen2⟩, ?_⟩⟩
  · rw [hMdef kM]
    ext <;> simp [hf, ha, hm]
  · rw [hMdef 0]
    cases qM.ids <;> rfl
  · rw [hTdef kT]
    ext <;> simp [hf2, ha2, hm2]
  · rw [hTdef 0]
    cases qT.ids <;> rfl

/-- C8 witness: over three ids with a well-formed stub service, consuming
two elements of either lazy sequence issues exactly two fetches and two
acquisitions of each limiter, and consuming nothing issues nothing. -/
theorem c8_lazy_get_many_witness :
    ((get_many_match qManyAmericas v4okFetch 2).2 = ⟨2, 2, 2⟩ ∧
      (∃ out, (get_many_match qManyAmericas v4okFetch 2).1 = .ok out ∧
        out.length = 2) ∧
      (get_many_match qManyAmericas v4okFetch 0).2 = ⟨0, 0, 0⟩) ∧
    ((get_many_match_timeline qManyAmericas v4okFetch 2).2 = ⟨2, 2, 2⟩ ∧
      (∃ out, (get_many_match_timeline qManyAmericas v4okFetch 2).1 = .ok out ∧
        out.length = 2) ∧
      (get_many_match_timeline qManyAmericas v4okFetch 0).2 = ⟨0, 0, 0⟩) :=
  c8_lazy_get_many qManyAmericas qManyAmericas v4okFetch v4okFetch 2 2
    .americas .americas rfl rfl rfl rfl

end RiotMatchAPI
